/-
  Verification of the Signal Fusion & Position Lifecycle Engine of the
  Personal_Paper_Trading repository against its specification.

  The embedding is shallow: prices, sentiment values and risk levels are
  rationals (the JS sources only ever combine them with +, -, *, /,
  Math.floor, Math.max and comparisons, all exact on the inputs the claims
  use); quantities are integers; enum-like JS strings stay strings.
  Each definition is translated from the named JS function:
  - `calculateQuantity`, `handleExistingPositions` (stop-loss ratchet,
    exit-reason chain, sale commit), `checkForBuyOpportunities` and the
    per-symbol loop of `executeDailyTrades` come from src/jobs/daily-trade.js;
  - `analyzeRsiTrend`, `determineTradeDecision` and the derived condition
    booleans come from src/services/strategy.js;
  - the `exitReason` enum lists come from the mongoose schemas in
    src/models/Portfolio.js and src/models/Trade.js.
  Spec-side rule tables (`decideSpec`, `analyzeRsiTrendSpec`) are written
  from the specification text alone and compared with the code-side
  definitions in the refinement theorems.
-/
import Mathlib

set_option maxHeartbeats 1000000

namespace PaperTrading

/-! ### Data model -/

/-- A Portfolio document (src/models/Portfolio.js) together with the extra
fields the jobs write on it (`signalStrength`, `profitLoss`).  Dates are
abstract day numbers. -/
structure Position where
  symbol : String
  buyPrice : ℚ
  quantity : ℤ
  buyDate : ℕ
  sold : Bool
  sellPrice : Option ℚ
  sellDate : Option ℕ
  stopLoss : ℚ
  target : ℚ
  exitReason : Option String
  signalStrength : Option String
  profitLoss : Option ℚ
  deriving Repr, DecidableEq

/-- A Trade document (src/models/Trade.js) as written by daily-trade.js. -/
structure TradeRec where
  symbol : String
  action : String
  price : ℚ
  quantity : ℤ
  exitReason : Option String
  newsSentiment : ℚ
  capitalUsed : ℚ
  profitLoss : Option ℚ
  profitLossPercent : Option ℚ
  signalStrength : Option String
  deriving Repr, DecidableEq

/-- The `enum` validator of the `exitReason` path in the Portfolio schema
(src/models/Portfolio.js line 13): a save with any other non-null string
fails mongoose validation. -/
def portfolioExitReasonEnum : List String := ["STRATEGY", "STOP_LOSS", "TARGET_HIT"]

/-- The `enum` validator of the `exitReason` path in the Trade schema
(src/models/Trade.js): null or one of these three strings. -/
def tradeExitReasonEnum : List String := ["STRATEGY", "STOP_LOSS", "TARGET_HIT"]

/-- `config.CAPITAL` from src/config (the ₹1L virtual-capital variant cited
by the claims). -/
def CAPITAL : ℚ := 100000

/-! ### Position sizing (daily-trade.js, `calculateQuantity`) -/

/-- `calculateQuantity(price, riskPercent, multiplier)`:
`riskAmount = (config.CAPITAL * riskPercent) / 100;
 return Math.floor((riskAmount * multiplier) / price)`. -/
def calculateQuantity (price riskPercent multiplier : ℚ) : ℤ :=
  ⌊CAPITAL * riskPercent / 100 * multiplier / price⌋

/-! ### RSI trend classification (strategy.js, `analyzeRsiTrend`) -/

/-- `analyzeRsiTrend(rsiData)` from src/services/strategy.js: UNKNOWN on
fewer than two points, then the change-based chain, then the volatility
check, else NEUTRAL. -/
def analyzeRsiTrend (rsiData : List ℚ) : String :=
  if rsiData.length < 2 then ("UNKNOWN")
  else
    let firstRSI := rsiData.headD 0
    let lastRSI := rsiData.getLastD 0
    let rsiChange := lastRSI - firstRSI
    let maxRSI := (rsiData.max?).getD 0
    let minRSI := (rsiData.min?).getD 0
    let isVolatile := maxRSI - minRSI > 10
    if rsiChange > 5 then ("STRONGLY_BULLISH")
    else if rsiChange > 2 then ("BULLISH")
    else if rsiChange < -5 then ("STRONGLY_BEARISH")
    else if rsiChange < -2 then ("BEARISH")
    else if isVolatile then ("VOLATILE")
    else ("NEUTRAL")

/-! ### The decision engine (strategy.js, `determineTradeDecision`) -/

/-- JavaScript `String.prototype.includes`: `sub` occurs contiguously in
`s`. -/
def jsIncludes (s sub : String) : Bool :=
  (List.range (s.toList.length + 1)).any
    (fun i => (s.toList.drop i).take sub.toList.length == sub.toList)

/-- The `rsi` factor passed to `determineTradeDecision`. -/
structure RsiFactor where
  current : ℚ
  trend : String
  deriving Repr, DecidableEq

/-- The `sentiment` factor passed to `determineTradeDecision`. -/
structure SentimentFactor where
  value : ℚ
  count : ℕ
  trend : String
  deriving Repr, DecidableEq

/-- The `technicalConditions` booleans computed in `evaluateStock`. -/
structure TechnicalConditions where
  isStronglyOversold : Bool
  isOversold : Bool
  isStronglyOverbought : Bool
  isOverbought : Bool
  deriving Repr, DecidableEq

/-- The `sentimentConditions` booleans computed in `evaluateStock`. -/
structure SentimentConditions where
  isStrongBullish : Bool
  isBullish : Bool
  isStrongBearish : Bool
  isBearish : Bool
  hasSufficientNews : Bool
  hasHighVolumeNews : Bool
  deriving Repr, DecidableEq

/-- The `factors` object handed to `determineTradeDecision`. -/
structure Factors where
  rsi : RsiFactor
  sentiment : SentimentFactor
  technicalConditions : TechnicalConditions
  sentimentConditions : SentimentConditions
  deriving Repr, DecidableEq

/-- `determineTradeDecision(factors)` from src/services/strategy.js:
the five guarded returns followed by the HOLD default, in source order. -/
def determineTradeDecision (factors : Factors) : String :=
  let rsi := factors.rsi
  let sentiment := factors.sentiment
  let tc := factors.technicalConditions
  let sc := factors.sentimentConditions
  if tc.isStronglyOversold && sc.isStrongBullish && sc.hasSufficientNews
      && jsIncludes rsi.trend ("BULLISH") then ("STRONG_BUY")
  else if (tc.isOversold && sc.isBullish && sc.hasSufficientNews)
      || (tc.isOversold && sentiment.trend == "IMPROVING" && sc.hasSufficientNews) then ("BUY")
  else if tc.isStronglyOverbought && sc.isStrongBearish && sc.hasSufficientNews
      && jsIncludes rsi.trend ("BEARISH") then ("STRONG_SELL")
  else if (tc.isOverbought && sc.isBearish && sc.hasSufficientNews)
      || (tc.isOverbought && sentiment.trend == "DETERIORATING" && sc.hasSufficientNews) then ("SELL")
  else if rsi.trend == "STRONGLY_BULLISH" && sentiment.trend == "IMPROVING"
      && sc.hasHighVolumeNews then ("BUY")
  else if rsi.trend == "STRONGLY_BEARISH" && sentiment.trend == "DETERIORATING"
      && sc.hasHighVolumeNews then ("SELL")
  else ("HOLD")

/-- The factor object `evaluateStock` builds before calling
`determineTradeDecision`: the derived condition booleans of
src/services/strategy.js lines 42-53. -/
def mkFactors (currentRSI : ℚ) (rsiTrend : String) (avgSentiment : ℚ)
    (newsCount : ℕ) (recentTrend : String) : Factors :=
  { rsi := { current := currentRSI, trend := rsiTrend }
    sentiment := { value := avgSentiment, count := newsCount, trend := recentTrend }
    technicalConditions :=
      { isStronglyOversold := decide (currentRSI < 25)
        isOversold := decide (currentRSI < 30)
        isStronglyOverbought := decide (currentRSI > 75)
        isOverbought := decide (currentRSI > 70) }
    sentimentConditions :=
      { isStrongBullish := decide (avgSentiment > 0.5)
        isBullish := decide (avgSentiment > 0.2)
        isStrongBearish := decide (avgSentiment < -0.5)
        isBearish := decide (avgSentiment < -0.2)
        hasSufficientNews := decide (newsCount ≥ 3)
        hasHighVolumeNews := decide (newsCount ≥ 5) } }

/-! ### Position lifecycle (daily-trade.js, `handleExistingPositions`) -/

/-- The dynamic stop-loss adjustment of `handleExistingPositions`:
`if (currentPrice > holding.buyPrice * 1.03 && holding.stopLoss < holding.buyPrice)
   holding.stopLoss = Math.max(holding.stopLoss, holding.buyPrice)`. -/
def applyRatchet (holding : Position) (currentPrice : ℚ) : Position :=
  if currentPrice > holding.buyPrice * 1.03 ∧ holding.stopLoss < holding.buyPrice then
    { holding with stopLoss := max holding.stopLoss holding.buyPrice }
  else holding

/-- The exit-condition chain of `handleExistingPositions` (daily-trade.js):
stop-loss, then target, then the SELL / STRONG_SELL strategy branch with its
`STRATEGY_NEWS` sentiment refinements; `none` means no exit this cycle. -/
def chooseExitReason (currentPrice stopLoss target : ℚ) (action : String)
    (newsSentiment : ℚ) : Option String :=
  if currentPrice ≤ stopLoss then some ("STOP_LOSS")
  else if currentPrice ≥ target then some ("TARGET_HIT")
  else if action = "SELL" ∨ action = "STRONG_SELL" then
    if newsSentiment < -0.5 ∧ action = "SELL" then some ("STRATEGY_NEWS")
    else if newsSentiment < -0.8 ∧ action = "STRONG_SELL" then some ("STRATEGY_NEWS")
    else some ("STRATEGY")
  else none

/-- One holding's pass through `handleExistingPositions`: ratchet first, then
the exit chain, then — only if an exit reason was found AND the broker order
succeeded (`placeOrder` did not throw) — the terminal sale mutation and the
SELL Trade.  A broker failure is caught inside the loop body, leaving the
(already ratcheted) holding otherwise untouched and appending no Trade. -/
def processHolding (holding : Position) (currentPrice : ℚ) (action : String)
    (newsSentiment : ℚ) (brokerOk : Bool) (today : ℕ) : Position × List TradeRec :=
  let unrealizedPnL := (currentPrice - holding.buyPrice) * (holding.quantity : ℚ)
  let pnlPercent := (currentPrice / holding.buyPrice - 1) * 100
  let h1 := applyRatchet holding currentPrice
  match chooseExitReason currentPrice h1.stopLoss h1.target action newsSentiment with
  | none => (h1, [])
  | some reason =>
    if brokerOk then
      ({ h1 with
          sold := true
          sellPrice := some currentPrice
          sellDate := some today
          exitReason := some reason
          profitLoss := some unrealizedPnL },
       [{ symbol := holding.symbol
          action := "SELL"
          price := currentPrice
          quantity := holding.quantity
          exitReason := some reason
          newsSentiment := newsSentiment
          capitalUsed := holding.buyPrice * (holding.quantity : ℚ)
          profitLoss := some unrealizedPnL
          profitLossPercent := some pnlPercent
          signalStrength := none }])
    else (h1, [])

/-- Is this Position one of the `Portfolio.find({ symbol, sold: false })`
results for `symbol`? -/
def openFor (symbol : String) (p : Position) : Bool :=
  p.symbol == symbol && !p.sold

/-- `handleExistingPositions(symbol, currentPrice, action, ...)` acting on the
whole Portfolio store: every open holding of `symbol` goes through
`processHolding`; everything else is untouched.  Returns the new store and
the SELL Trades appended. -/
def handleExistingPositions (store : List Position) (symbol : String)
    (currentPrice : ℚ) (action : String) (newsSentiment : ℚ) (brokerOk : Bool)
    (today : ℕ) : List Position × List TradeRec :=
  (store.map fun p =>
      if openFor symbol p then (processHolding p currentPrice action newsSentiment brokerOk today).1
      else p,
   (store.map fun p =>
      if openFor symbol p then (processHolding p currentPrice action newsSentiment brokerOk today).2
      else []).flatten)

/-- `checkForBuyOpportunities(symbol, currentPrice, action, ...)` from
daily-trade.js: return early when an open position exists, when the action is
not a buy, when negative news sentiment suppresses the buy, when the computed
quantity is ≤ 0, or when the broker order fails; otherwise append the new
Position (with the conviction-dependent risk bands) and the BUY Trade. -/
def checkForBuyOpportunities (store : List Position) (symbol : String)
    (currentPrice : ℚ) (action : String) (newsSentiment : ℚ)
    (riskPercent : ℚ) (brokerOk : Bool) (today : ℕ) :
    List Position × List TradeRec :=
  let activeHoldings := store.filter (openFor symbol)
  if activeHoldings.length > 0 then (store, [])
  else if action = "BUY" ∨ action = "STRONG_BUY" then
    if newsSentiment < -0.8 ∧ action = "BUY" then (store, [])
    else if newsSentiment < -0.9 ∧ action = "STRONG_BUY" then (store, [])
    else
      let positionMultiplier : ℚ := if action = "STRONG_BUY" then 1.5 else 1
      let quantity := calculateQuantity currentPrice riskPercent positionMultiplier
      if quantity ≤ 0 then (store, [])
      else if brokerOk then
        let stopLossLevel := if action = "STRONG_BUY" then currentPrice * 0.96
                             else currentPrice * 0.95
        let targetLevel := if action = "STRONG_BUY" then currentPrice * 1.12
                           else currentPrice * 1.10
        (store ++ [{ symbol := symbol
                     buyPrice := currentPrice
                     quantity := quantity
                     buyDate := today
                     sold := false
                     sellPrice := none
                     sellDate := none
                     stopLoss := stopLossLevel
                     target := targetLevel
                     exitReason := none
                     signalStrength := some action
                     profitLoss := none }],
         [{ symbol := symbol
            action := "BUY"
            price := currentPrice
            quantity := quantity
            exitReason := none
            newsSentiment := newsSentiment
            capitalUsed := currentPrice * quantity
            profitLoss := none
            profitLossPercent := none
            signalStrength := some action }])
      else (store, [])
  else (store, [])

/-! ### The daily runner (daily-trade.js, `executeDailyTrades`) -/

/-- The Portfolio store plus the append-only Trade ledger. -/
structure TradingState where
  portfolio : List Position
  trades : List TradeRec
  deriving Repr, DecidableEq

/-- The per-cycle external inputs for one symbol: the price fetch result
(`none` models `getCurrentPrice` returning null), the strategy action, the
symbol's news sentiment, whether `placeOrder` succeeds, and the date. -/
structure SymbolInputs where
  price : Option ℚ
  action : String
  newsSentiment : ℚ
  brokerOk : Bool
  today : ℕ
  deriving Repr, DecidableEq

/-- The body of one iteration of the `executeDailyTrades` watch-list loop:
skip the symbol when the price is unavailable, otherwise exit-check then
entry-check. -/
def processSymbolWith (riskPercent : ℚ) (i : SymbolInputs) (st : TradingState)
    (symbol : String) : TradingState :=
  match i.price with
  | none => st
  | some currentPrice =>
    let r1 := handleExistingPositions st.portfolio symbol currentPrice i.action
                i.newsSentiment i.brokerOk i.today
    let r2 := checkForBuyOpportunities r1.1 symbol currentPrice i.action
                i.newsSentiment riskPercent i.brokerOk i.today
    { portfolio := r2.1, trades := st.trades ++ r1.2 ++ r2.2 }

/-- A sequential history of symbol-processing cycles (one run after another,
at most one in flight): each event is a symbol with that cycle's external
inputs, executed in order through `processSymbolWith`. -/
def runEvents (riskPercent : ℚ) : List (String × SymbolInputs) → TradingState → TradingState
  | [], st => st
  | (symbol, i) :: rest, st =>
    runEvents riskPercent rest (processSymbolWith riskPercent i st symbol)

/-- The `executeDailyTrades` watch-list loop with its per-symbol try/catch:
`body` is one symbol's processing, which may throw; an exception is caught at
the symbol boundary (logged as an implicit HOLD), the state is left as it
was, and the loop proceeds with the next symbol. -/
def runWatchlist (body : TradingState → String → Except String TradingState) :
    List String → TradingState → TradingState
  | [], st => st
  | symbol :: rest, st =>
    match body st symbol with
    | .ok st' => runWatchlist body rest st'
    | .error _ => runWatchlist body rest st

/-- At most one open (unsold) Position per symbol in the store. -/
def OpenInvariant (store : List Position) : Prop :=
  ∀ symbol, (store.filter (openFor symbol)).length ≤ 1

/-! ### Spec-side rule tables (written from the specification text, for the
refinement comparisons) -/

/-- The seven values of the spec's RSITrend enumeration — exactly the
strings `analyzeRsiTrend` can return. -/
def rsiTrendValues : List String :=
  ["STRONGLY_BULLISH", "BULLISH", "NEUTRAL", "VOLATILE", "BEARISH",
   "STRONGLY_BEARISH", "UNKNOWN"]

/-- The ordered rule table of spec §4.3 as the claim states it, first match
wins: STRONG_BUY, BUY, STRONG_SELL, SELL, the two trend-confirmation rules,
default HOLD. -/
def decideSpec (rsi : RsiFactor) (sentiment : SentimentFactor) : String :=
  if rsi.current < 25 ∧ sentiment.value > 0.5 ∧ 3 ≤ sentiment.count ∧
      (rsi.trend = "STRONGLY_BULLISH" ∨ rsi.trend = "BULLISH") then ("STRONG_BUY")
  else if rsi.current < 30 ∧ 3 ≤ sentiment.count ∧
      (sentiment.value > 0.2 ∨ sentiment.trend = "IMPROVING") then ("BUY")
  else if rsi.current > 75 ∧ sentiment.value < -0.5 ∧ 3 ≤ sentiment.count ∧
      (rsi.trend = "STRONGLY_BEARISH" ∨ rsi.trend = "BEARISH") then ("STRONG_SELL")
  else if rsi.current > 70 ∧ 3 ≤ sentiment.count ∧
      (sentiment.value < -0.2 ∨ sentiment.trend = "DETERIORATING") then ("SELL")
  else if rsi.trend = "STRONGLY_BULLISH" ∧ sentiment.trend = "IMPROVING" ∧
      5 ≤ sentiment.count then ("BUY")
  else if rsi.trend = "STRONGLY_BEARISH" ∧ sentiment.trend = "DETERIORATING" ∧
      5 ≤ sentiment.count then ("SELL")
  else ("HOLD")

/-- The `classifyTrend` contract of spec §4.1 as the claim states it:
UNKNOWN below two values, then the four change thresholds in order, then
the volatility rule, else NEUTRAL. -/
def analyzeRsiTrendSpec (recentRSI : List ℚ) : String :=
  if recentRSI.length < 2 then ("UNKNOWN")
  else
    let change := recentRSI.getLastD 0 - recentRSI.headD 0
    if change > 5 then ("STRONGLY_BULLISH")
    else if change > 2 then ("BULLISH")
    else if change < -5 then ("STRONGLY_BEARISH")
    else if change < -2 then ("BEARISH")
    else if (recentRSI.max?).getD 0 - (recentRSI.min?).getD 0 > 10 then ("VOLATILE")
    else ("NEUTRAL")

/-! ### Shared helper lemmas -/

theorem applyRatchet_symbol (p : Position) (c : ℚ) :
    (applyRatchet p c).symbol = p.symbol := by
  simp only [applyRatchet]; split <;> rfl

theorem applyRatchet_buyPrice (p : Position) (c : ℚ) :
    (applyRatchet p c).buyPrice = p.buyPrice := by
  simp only [applyRatchet]; split <;> rfl

theorem applyRatchet_target (p : Position) (c : ℚ) :
    (applyRatchet p c).target = p.target := by
  simp only [applyRatchet]; split <;> rfl

theorem applyRatchet_sold (p : Position) (c : ℚ) :
    (applyRatchet p c).sold = p.sold := by
  simp only [applyRatchet]; split <;> rfl

theorem applyRatchet_sellPrice (p : Position) (c : ℚ) :
    (applyRatchet p c).sellPrice = p.sellPrice := by
  simp only [applyRatchet]; split <;> rfl

theorem applyRatchet_sellDate (p : Position) (c : ℚ) :
    (applyRatchet p c).sellDate = p.sellDate := by
  simp only [applyRatchet]; split <;> rfl

theorem applyRatchet_exitReason (p : Position) (c : ℚ) :
    (applyRatchet p c).exitReason = p.exitReason := by
  simp only [applyRatchet]; split <;> rfl

theorem applyRatchet_profitLoss (p : Position) (c : ℚ) :
    (applyRatchet p c).profitLoss = p.profitLoss := by
  simp only [applyRatchet]; split <;> rfl

/-- When the ratchet guard holds, the stop-loss is set to exactly the buy
price (`Math.max` of a smaller stop-loss and the buy price). -/
theorem applyRatchet_stopLoss_fires (p : Position) (c : ℚ)
    (h1 : c > p.buyPrice * 1.03) (h2 : p.stopLoss < p.buyPrice) :
    (applyRatchet p c).stopLoss = p.buyPrice := by
  simp only [applyRatchet, if_pos (And.intro h1 h2)]
  exact max_eq_right h2.le

/-- The ratchet never lowers the stop-loss. -/
theorem applyRatchet_stopLoss_mono (p : Position) (c : ℚ) :
    p.stopLoss ≤ (applyRatchet p c).stopLoss := by
  simp only [applyRatchet]; split
  · exact le_max_left _ _
  · exact le_rfl

/-- The sale commit never touches the stop-loss: after `processHolding` the
stop-loss is exactly the ratcheted one, whether or not an exit fired. -/
theorem processHolding_stopLoss (p : Position) (c s : ℚ) (a : String)
    (b : Bool) (d : ℕ) :
    (processHolding p c a s b d).1.stopLoss = (applyRatchet p c).stopLoss := by
  unfold processHolding
  cases hc : chooseExitReason c (applyRatchet p c).stopLoss (applyRatchet p c).target a s with
  | none => simp only [hc]
  | some r => simp only [hc]; cases b <;> rfl

theorem processHolding_symbol (p : Position) (c s : ℚ) (a : String)
    (b : Bool) (d : ℕ) :
    (processHolding p c a s b d).1.symbol = p.symbol := by
  unfold processHolding
  cases hc : chooseExitReason c (applyRatchet p c).stopLoss (applyRatchet p c).target a s with
  | none => simp only [hc]; exact applyRatchet_symbol p c
  | some r =>
    simp only [hc]
    cases b
    · exact applyRatchet_symbol p c
    · exact applyRatchet_symbol p c

/-! ### Claim theorems -/

/-- C3: the exit check selects the exit reason by strict priority, first
match wins — stop-loss before target before strategy exit; in particular at
stopLoss=95, target=110, buyPrice=100, currentPrice=94 with signal SELL the
exit reason is STOP_LOSS, not STRATEGY. -/
theorem exitCheck_priority_first_match_wins
    (currentPrice stopLoss target newsSentiment : ℚ) (action : String) :
    (currentPrice ≤ stopLoss →
      chooseExitReason currentPrice stopLoss target action newsSentiment =
        some ("STOP_LOSS")) ∧
    (¬ currentPrice ≤ stopLoss → currentPrice ≥ target →
      chooseExitReason currentPrice stopLoss target action newsSentiment =
        some ("TARGET_HIT")) ∧
    (¬ currentPrice ≤ stopLoss → ¬ currentPrice ≥ target →
      (action = "SELL" ∨ action = "STRONG_SELL") →
      (chooseExitReason currentPrice stopLoss target action newsSentiment =
         some ("STRATEGY") ∨
       chooseExitReason currentPrice stopLoss target action newsSentiment =
         some ("STRATEGY_NEWS"))) ∧
    (processHolding
        { symbol := "X", buyPrice := 100, quantity := 10, buyDate := 0,
          sold := false, sellPrice := none, sellDate := none, stopLoss := 95,
          target := 110, exitReason := none, signalStrength := some ("BUY"),
          profitLoss := none }
        94 ("SELL") newsSentiment true 1).1.exitReason = some ("STOP_LOSS") := by
  refine ⟨?_, ?_, ?_, ?_⟩
  · intro h
    unfold chooseExitReason
    rw [if_pos h]
  · intro h1 h2
    unfold chooseExitReason
    rw [if_neg h1, if_pos h2]
  · intro h1 h2 h3
    unfold chooseExitReason
    rw [if_neg h1, if_neg h2, if_pos h3]
    split_ifs <;> simp
  · have hr : applyRatchet
        { symbol := "X", buyPrice := 100, quantity := 10, buyDate := 0,
          sold := false, sellPrice := none, sellDate := none, stopLoss := 95,
          target := 110, exitReason := none, signalStrength := some ("BUY"),
          profitLoss := none } 94 =
        { symbol := "X", buyPrice := 100, quantity := 10, buyDate := 0,
          sold := false, sellPrice := none, sellDate := none, stopLoss := 95,
          target := 110, exitReason := none, signalStrength := some ("BUY"),
          profitLoss := none } := by
      unfold applyRatchet
      rw [if_neg]
      norm_num
    have hce : chooseExitReason 94 95 110 ("SELL") newsSentiment = some ("STOP_LOSS") := by
      unfold chooseExitReason
      rw [if_pos (by norm_num)]
    unfold processHolding
    simp only [hr, hce]
    simp

/-- Witness for C3 at the spec's concrete exit-priority scenario. -/
theorem exitCheck_priority_witness :
    (94 : ℚ) ≤ 95 ∧
    chooseExitReason 94 95 110 ("SELL") (-0.6) = some ("STOP_LOSS") := by
  refine ⟨by norm_num, ?_⟩
  exact (exitCheck_priority_first_match_wins 94 95 110 (-0.6) "SELL").1 (by norm_num)

/-- C4: before exits are evaluated, the breakeven ratchet raises the
stop-loss to exactly the buy price when currentPrice > buyPrice·1.03 and
stopLoss < buyPrice; the stop-loss is never lowered by any operation of the
cycle, and the ratcheted value is what the cycle leaves behind whether or
not an exit fires. -/
theorem breakeven_ratchet_monotone (p : Position) (c s : ℚ) (a : String)
    (b : Bool) (d : ℕ) :
    (c > p.buyPrice * 1.03 → p.stopLoss < p.buyPrice →
      (applyRatchet p c).stopLoss = p.buyPrice) ∧
    p.stopLoss ≤ (applyRatchet p c).stopLoss ∧
    (processHolding p c a s b d).1.stopLoss = (applyRatchet p c).stopLoss :=
  ⟨fun h1 h2 => applyRatchet_stopLoss_fires p c h1 h2,
   applyRatchet_stopLoss_mono p c,
   processHolding_stopLoss p c s a b d⟩

/-- Witness for C4 at the spec's example: buyPrice=100, stopLoss=95,
currentPrice=104 ratchets the stop-loss to 100. -/
theorem breakeven_ratchet_witness :
    (104 : ℚ) > 100 * 1.03 ∧ (95 : ℚ) < 100 ∧
    (applyRatchet
        { symbol := "X", buyPrice := 100, quantity := 10, buyDate := 0,
          sold := false, sellPrice := none, sellDate := none, stopLoss := 95,
          target := 110, exitReason := none, signalStrength := some ("BUY"),
          profitLoss := none } 104).stopLoss = 100 := by
  refine ⟨by norm_num, by norm_num, ?_⟩
  exact (breakeven_ratchet_monotone
    { symbol := "X", buyPrice := 100, quantity := 10, buyDate := 0,
      sold := false, sellPrice := none, sellDate := none, stopLoss := 95,
      target := 110, exitReason := none, signalStrength := some ("BUY"),
      profitLoss := none } 104 0 ("HOLD") true 1).1 (by norm_num) (by norm_num)

/-- C10: in a cycle where the ratchet fires (buyPrice > 0,
currentPrice > buyPrice·1.03, stopLoss < buyPrice beforehand), the STOP_LOSS
exit branch is unreachable in that same cycle. -/
theorem ratchet_cycle_stop_loss_unreachable (p : Position) (c s : ℚ)
    (a : String) (h0 : 0 < p.buyPrice) (h1 : c > p.buyPrice * 1.03)
    (h2 : p.stopLoss < p.buyPrice) :
    chooseExitReason c (applyRatchet p c).stopLoss (applyRatchet p c).target
      a s ≠ some ("STOP_LOSS") := by
  have hsl : (applyRatchet p c).stopLoss = p.buyPrice :=
    applyRatchet_stopLoss_fires p c h1 h2
  have hgt : ¬ c ≤ (applyRatchet p c).stopLoss := by
    rw [hsl]
    push_neg
    linarith
  unfold chooseExitReason
  rw [if_neg hgt]
  split_ifs <;> simp

/-- Witness for C10: with buyPrice=100, stopLoss=95 at currentPrice=104 and
signal SELL, the cycle's exit reason cannot be STOP_LOSS. -/
theorem ratchet_cycle_stop_loss_witness :
    chooseExitReason 104
      (applyRatchet
        { symbol := "X", buyPrice := 100, quantity := 10, buyDate := 0,
          sold := false, sellPrice := none, sellDate := none, stopLoss := 95,
          target := 110, exitReason := none, signalStrength := some ("BUY"),
          profitLoss := none } 104).stopLoss
      (applyRatchet
        { symbol := "X", buyPrice := 100, quantity := 10, buyDate := 0,
          sold := false, sellPrice := none, sellDate := none, stopLoss := 95,
          target := 110, exitReason := none, signalStrength := some ("BUY"),
          profitLoss := none } 104).target ("SELL") 0 ≠ some ("STOP_LOSS") :=
  ratchet_cycle_stop_loss_unreachable
    { symbol := "X", buyPrice := 100, quantity := 10, buyDate := 0,
      sold := false, sellPrice := none, sellDate := none, stopLoss := 95,
      target := 110, exitReason := none, signalStrength := some ("BUY"),
      profitLoss := none } 104 0 ("SELL") (by norm_num) (by norm_num) (by norm_num)

/-- C7: if the broker order fails while an exit is executed, none of the
position's terminal fields (sold, sellPrice, sellDate, exitReason,
profitLoss) is modified and no SELL Trade is appended — the holding keeps
its previous sale state for the next run. -/
theorem broker_failure_leaves_position_open (p : Position) (c s : ℚ)
    (a : String) (d : ℕ) :
    (processHolding p c a s false d).1.sold = p.sold ∧
    (processHolding p c a s false d).1.sellPrice = p.sellPrice ∧
    (processHolding p c a s false d).1.sellDate = p.sellDate ∧
    (processHolding p c a s false d).1.exitReason = p.exitReason ∧
    (processHolding p c a s false d).1.profitLoss = p.profitLoss ∧
    (processHolding p c a s false d).2 = [] := by
  unfold processHolding
  cases hc : chooseExitReason c (applyRatchet p c).stopLoss (applyRatchet p c).target a s with
  | none =>
    simp only [hc]
    exact ⟨applyRatchet_sold p c, applyRatchet_sellPrice p c,
      applyRatchet_sellDate p c, applyRatchet_exitReason p c,
      applyRatchet_profitLoss p c, trivial⟩
  | some r =>
    simp only [hc, Bool.false_eq_true, if_false]
    exact ⟨applyRatchet_sold p c, applyRatchet_sellPrice p c,
      applyRatchet_sellDate p c, applyRatchet_exitReason p c,
      applyRatchet_profitLoss p c, trivial⟩

/-- C5: the strategy-exit branch picks STRATEGY_NEWS exactly when the
sentiment threshold is met (sentiment < −0.5 for SELL, < −0.8 for
STRONG_SELL) and STRATEGY otherwise — but the STRATEGY_NEWS label is NOT in
the `exitReason` enum of the Portfolio schema nor of the Trade schema, so
persisting such an exit fails mongoose validation (the code bug behind this
claim). -/
theorem strategy_news_exit_rejected_by_schemas :
    chooseExitReason 100 95 110 ("SELL") (-0.6) = some ("STRATEGY_NEWS") ∧
    chooseExitReason 100 95 130 ("STRONG_SELL") (-0.9) = some ("STRATEGY_NEWS") ∧
    chooseExitReason 100 95 110 ("SELL") (-0.4) = some ("STRATEGY") ∧
    chooseExitReason 100 95 130 ("STRONG_SELL") (-0.7) = some ("STRATEGY") ∧
    "STRATEGY_NEWS" ∉ portfolioExitReasonEnum ∧
    "STRATEGY_NEWS" ∉ tradeExitReasonEnum := by
  refine ⟨?_, ?_, ?_, ?_, by decide, by decide⟩ <;>
    (norm_num [chooseExitReason]; try decide)

/-- C9: `analyzeRsiTrend` equals the spec's ordered classification rules
(UNKNOWN below two samples, the four change thresholds, then volatility,
else NEUTRAL), the change rules take priority over the volatility rule, and
the spec's concrete examples hold. -/
theorem classifyTrend_matches_spec :
    (∀ l : List ℚ, analyzeRsiTrend l = analyzeRsiTrendSpec l) ∧
    analyzeRsiTrend [30, 32, 35, 38, 40] = "STRONGLY_BULLISH" ∧
    analyzeRsiTrend [50, 45, 40, 42, 30] = "STRONGLY_BEARISH" ∧
    analyzeRsiTrend [30, 45, 34] = "BULLISH" ∧
    analyzeRsiTrend [] = "UNKNOWN" ∧
    analyzeRsiTrend [50] = "UNKNOWN" := by
  refine ⟨fun l => rfl, ?_, ?_, ?_, rfl, rfl⟩ <;>
    norm_num [analyzeRsiTrend, List.max?, List.min?]

/-- C8 counterexample: as stated the claim quantifies over every
riskPercent and asserts a non-negative result, but at price = 100 > 0,
riskPercent = −2, multiplier = 1 the code returns −20 < 0. -/
theorem calculateQuantity_negative_riskPercent :
    calculateQuantity 100 (-2) 1 = -20 ∧ calculateQuantity 100 (-2) 1 < 0 := by
  norm_num [calculateQuantity, CAPITAL]

/-- C8 (amended): for every price > 0 and non-negative riskPercent and
multiplier, `calculateQuantity` returns
⌊(capital·riskPercent/100)·multiplier/price⌋ with capital = 100000, the
result is a non-negative integer, calculateQuantity(100,2,1) = 20, and a
quantity ≤ 0 makes the entry check skip the symbol without creating a
Position or Trade and without failing. -/
theorem calculateQuantity_floor_formula (price riskPercent multiplier : ℚ)
    (hp : 0 < price) (hr : 0 ≤ riskPercent) (hm : 0 ≤ multiplier) :
    calculateQuantity price riskPercent multiplier =
      ⌊CAPITAL * riskPercent / 100 * multiplier / price⌋ ∧
    0 ≤ calculateQuantity price riskPercent multiplier ∧
    calculateQuantity 100 2 1 = 20 ∧
    (∀ (store : List Position) (symbol : String) (newsSentiment : ℚ) (d : ℕ),
      calculateQuantity price riskPercent 1 ≤ 0 →
      checkForBuyOpportunities store symbol price ("BUY") newsSentiment
        riskPercent true d = (store, [])) := by
  refine ⟨rfl, ?_, by norm_num [calculateQuantity, CAPITAL], ?_⟩
  · unfold calculateQuantity CAPITAL
    apply Int.floor_nonneg.mpr
    positivity
  · intro store symbol newsSentiment d hq
    unfold checkForBuyOpportunities
    split_ifs <;> simp_all

/-- Witness for C8's amended theorem at the spec's sizing example. -/
theorem calculateQuantity_floor_witness :
    0 < (100 : ℚ) ∧ 0 ≤ (2 : ℚ) ∧ 0 ≤ (1 : ℚ) ∧ calculateQuantity 100 2 1 = 20 :=
  ⟨by norm_num, by norm_num, by norm_num,
   (calculateQuantity_floor_formula 100 2 1 (by norm_num) (by norm_num)
     (by norm_num)).2.2.1⟩

theorem runWatchlist_cons
    (body : TradingState → String → Except String TradingState)
    (x : String) (xs : List String) (st : TradingState) :
    runWatchlist body (x :: xs) st =
      match body st x with
      | .ok st' => runWatchlist body xs st'
      | .error _ => runWatchlist body xs st := rfl

/-- The watch-list loop distributes over list append. -/
theorem runWatchlist_append
    (body : TradingState → String → Except String TradingState)
    (xs ys : List String) (st : TradingState) :
    runWatchlist body (xs ++ ys) st =
      runWatchlist body ys (runWatchlist body xs st) := by
  induction xs generalizing st with
  | nil => rfl
  | cons x xs ih =>
    rw [List.cons_append, runWatchlist_cons, runWatchlist_cons]
    cases body st x
    · exact ih st
    · exact ih _

/-- C6: a symbol whose processing throws is caught at the symbol boundary
(logged as an implicit HOLD, state left as it was) and every later symbol in
the watch-list is still processed; the run as a whole does not abort. -/
theorem symbol_failure_isolated
    (body : TradingState → String → Except String TradingState)
    (pre post : List String) (badSymbol : String) (st : TradingState)
    (e : String)
    (h : body (runWatchlist body pre st) badSymbol = .error e) :
    runWatchlist body (pre ++ badSymbol :: post) st =
      runWatchlist body post (runWatchlist body pre st) := by
  rw [runWatchlist_append, runWatchlist_cons, h]

/-- Witness for C6: a body that throws on symbol BAD leaves the symbols
around it processed exactly as if BAD were skipped. -/
theorem symbol_failure_isolated_witness :
    runWatchlist
      (fun st sym => if sym = "BAD" then Except.error ("boom") else Except.ok st)
      (["GOOD1"] ++ "BAD" :: ["GOOD2"]) ⟨[], []⟩ =
    runWatchlist
      (fun st sym => if sym = "BAD" then Except.error ("boom") else Except.ok st)
      ["GOOD2"]
      (runWatchlist
        (fun st sym => if sym = "BAD" then Except.error ("boom") else Except.ok st)
        ["GOOD1"] ⟨[], []⟩) :=
  symbol_failure_isolated
    (fun st sym => if sym = "BAD" then Except.error ("boom") else Except.ok st)
    ["GOOD1"] ["GOOD2"] "BAD" ⟨[], []⟩ "boom" (by rfl)

/-- On the RSITrend enumeration, `trend.includes("BULLISH")` holds exactly
for the two bullish variants. -/
theorem jsIncludes_bullish (t : String) (h : t ∈ rsiTrendValues) :
    jsIncludes t ("BULLISH") = (t == "STRONGLY_BULLISH" || t == "BULLISH") := by
  fin_cases h <;> decide

/-- On the RSITrend enumeration, `trend.includes("BEARISH")` holds exactly
for the two bearish variants. -/
theorem jsIncludes_bearish (t : String) (h : t ∈ rsiTrendValues) :
    jsIncludes t ("BEARISH") = (t == "STRONGLY_BEARISH" || t == "BEARISH") := by
  fin_cases h <;> decide

/-- C2: `determineTradeDecision` (with the condition booleans derived as in
`evaluateStock`) equals the spec's ordered first-match-wins rule table for
every RSI level, RSITrend value, sentiment value, news count and sentiment
trend; it is a pure function of those inputs. -/
theorem decision_matches_rule_table (currentRSI avgSentiment : ℚ)
    (newsCount : ℕ) (rsiTrend recentTrend : String)
    (h : rsiTrend ∈ rsiTrendValues) :
    determineTradeDecision
        (mkFactors currentRSI rsiTrend avgSentiment newsCount recentTrend) =
      decideSpec ⟨currentRSI, rsiTrend⟩ ⟨avgSentiment, newsCount, recentTrend⟩ := by
  have hb := jsIncludes_bullish rsiTrend h
  have hbe := jsIncludes_bearish rsiTrend h
  unfold determineTradeDecision decideSpec mkFactors
  simp only [hb, hbe, Bool.and_eq_true, Bool.or_eq_true, beq_iff_eq,
    decide_eq_true_eq, ge_iff_le, gt_iff_lt]
  split_ifs
  all_goals first | rfl | itauto

/-- Witness for C2 at a concrete boundary input (RSI 24.999, bullish trend,
strong positive sentiment, three news items). -/
theorem decision_matches_rule_table_witness :
    "BULLISH" ∈ rsiTrendValues ∧
    determineTradeDecision (mkFactors 24.999 ("BULLISH") 0.6 3 ("NEUTRAL")) =
      decideSpec ⟨24.999, "BULLISH"⟩ ⟨0.6, 3, "NEUTRAL"⟩ :=
  ⟨by decide,
   decision_matches_rule_table 24.999 0.6 3 ("BULLISH") "NEUTRAL" (by decide)⟩

/-- Mapping a function that can only shrink the filtered set never increases
the filtered length. -/
theorem length_filter_map_le {α : Type} (q : α → Bool) (g : α → α) (l : List α)
    (h : ∀ x, q (g x) = true → q x = true) :
    ((l.map g).filter q).length ≤ (l.filter q).length := by
  induction l with
  | nil => simp
  | cons a l ih =>
    by_cases hga : q (g a) = true
    · have ha : q a = true := h a hga
      simp only [List.map_cons, List.filter_cons, hga, ha, if_true,
        List.length_cons]
      exact Nat.succ_le_succ ih
    · have hga' : q (g a) = false := by
        revert hga; cases q (g a) <;> simp
      simp only [List.map_cons, List.filter_cons, hga', Bool.false_eq_true,
        if_false]
      cases ha : q a
      · simp only [Bool.false_eq_true, if_false]
        exact ih
      · simp only [if_true, List.length_cons]
        exact Nat.le_succ_of_le ih

/-- The exit pass over the store (`handleExistingPositions`) only mutates
existing holdings — it can close open positions but never creates one, so
the at-most-one-open invariant is preserved. -/
theorem handleExistingPositions_invariant (store : List Position)
    (symbol : String) (c : ℚ) (a : String) (s : ℚ) (b : Bool) (d : ℕ)
    (h : OpenInvariant store) :
    OpenInvariant (handleExistingPositions store symbol c a s b d).1 := by
  intro sym
  have key : ∀ p : Position,
      openFor sym (if openFor symbol p then (processHolding p c a s b d).1 else p)
        = true →
      openFor sym p = true := by
    intro p hp
    by_cases hob : openFor symbol p = true
    · rw [if_pos hob] at hp
      have hsymb : (processHolding p c a s b d).1.symbol = p.symbol :=
        processHolding_symbol p c s a b d
      have hsold : p.sold = false := by
        have := hob
        unfold openFor at this
        simp only [Bool.and_eq_true, Bool.not_eq_true'] at this
        exact this.2
      unfold openFor at hp ⊢
      simp only [Bool.and_eq_true, beq_iff_eq, Bool.not_eq_true'] at hp ⊢
      exact ⟨by rw [← hsymb]; exact hp.1, hsold⟩
    · rw [if_neg hob] at hp
      exact hp
  calc ((handleExistingPositions store symbol c a s b d).1.filter
          (openFor sym)).length
      ≤ (store.filter (openFor sym)).length :=
        length_filter_map_le (openFor sym) _ store key
    _ ≤ 1 := h sym

/-- Appending one position for a symbol with no open position in the store
preserves the at-most-one-open invariant. -/
theorem append_one_open_invariant (store : List Position) (newPos : Position)
    (symbol : String) (h : OpenInvariant store)
    (hempty : (store.filter (openFor symbol)).length = 0)
    (hnewsym : newPos.symbol = symbol) :
    OpenInvariant (store ++ [newPos]) := by
  intro sym
  rw [List.filter_append, List.length_append]
  by_cases hsym : sym = symbol
  · subst hsym
    rw [hempty]
    have hle : (List.filter (openFor sym) [newPos]).length ≤ [newPos].length :=
      List.length_filter_le _ _
    simpa using hle
  · have hnew : openFor sym newPos = false := by
      unfold openFor
      simp only [Bool.and_eq_false_iff, beq_eq_false_iff_ne, ne_eq]
      left
      rw [hnewsym]
      exact fun hc => hsym hc.symm
    simp only [List.filter_cons, hnew, Bool.false_eq_true, if_false,
      List.filter_nil, List.length_nil]
    have := h sym
    omega

/-- The entry pass (`checkForBuyOpportunities`) creates a Position only when
its query for open positions of the symbol found none, so the
at-most-one-open invariant is preserved. -/
theorem checkForBuyOpportunities_invariant (store : List Position)
    (symbol : String) (c : ℚ) (a : String) (ns riskPercent : ℚ) (b : Bool)
    (d : ℕ) (h : OpenInvariant store) :
    OpenInvariant
      (checkForBuyOpportunities store symbol c a ns riskPercent b d).1 := by
  simp only [checkForBuyOpportunities]
  split_ifs <;>
    first
      | exact h
      | (refine append_one_open_invariant store _ symbol h ?_ rfl
         omega)

/-- One symbol's full cycle (exit check then entry check) preserves the
at-most-one-open invariant. -/
theorem processSymbolWith_invariant (riskPercent : ℚ) (i : SymbolInputs)
    (st : TradingState) (symbol : String) (h : OpenInvariant st.portfolio) :
    OpenInvariant (processSymbolWith riskPercent i st symbol).portfolio := by
  unfold processSymbolWith
  cases hp : i.price with
  | none => exact h
  | some c =>
    exact checkForBuyOpportunities_invariant _ symbol c i.action i.newsSentiment
      riskPercent i.brokerOk i.today
      (handleExistingPositions_invariant st.portfolio symbol c i.action
        i.newsSentiment i.brokerOk i.today h)

/-- C1: under sequential execution every reachable Portfolio-store state has
at most one open (unsold) Position per symbol: if a state satisfies the
invariant (as the empty initial store does), it still satisfies it after any
sequence of per-symbol cycles. -/
theorem at_most_one_open_position (riskPercent : ℚ)
    (events : List (String × SymbolInputs)) (st : TradingState)
    (h : OpenInvariant st.portfolio) :
    OpenInvariant (runEvents riskPercent events st).portfolio := by
  induction events generalizing st with
  | nil => exact h
  | cons e rest ih =>
    obtain ⟨symbol, i⟩ := e
    exact ih _ (processSymbolWith_invariant riskPercent i st symbol h)

/-- Witness for C1: one BUY cycle from the empty store keeps the invariant. -/
theorem at_most_one_open_position_witness :
    OpenInvariant (runEvents 2
      [("TCS", { price := some 100, action := "BUY", newsSentiment := 0,
                 brokerOk := true, today := 0 })]
      { portfolio := [], trades := [] }).portfolio :=
  at_most_one_open_position 2
    [("TCS", { price := some 100, action := "BUY", newsSentiment := 0,
               brokerOk := true, today := 0 })]
    { portfolio := [], trades := [] }
    (fun sym => by simp)

end PaperTrading
